import Mathlib

/-!
Shallow embedding of the ATMOS proof-of-authority consensus engine
(package atmos of the go-aerum repository) together with the constants
of the params package that the engine consumes.

Conventions of the embedding:
a Go uint64 is a Nat reduced modulo 2^64 exactly where Go wrapping
matters; Go code that can fail returns an Except value; a Go panic is
modelled as Option.none of the surrounding computation; a Go map used
as a set (snap.Signers) is a list of its keys, and the map
snap.Recents from block number to signer is a list of pairs.
-/

namespace Atmos

/-- A 20-byte account address viewed as its big-endian numeric value.
Lexicographic order on the raw 20 bytes coincides with numeric order,
so sorting addresses numerically models sorting by raw address bytes. -/
abbrev Address := Nat

/-- Consensus engine configuration parameters: the fields of
params.AtmosConfig that the engine reads. -/
structure AtmosConfig where
  Period : Nat
  Epoch : Nat
  GovernanceAddress : Address
  EthereumApiEndpoint : String
  EnableTestNet : Bool

/-- Maximum number of signers available in epoch (consensus/atmos constant). -/
def numberOfSigners : Nat := 10

/-- params/atmos_params.go: atmosEpochInterval. -/
def atmosEpochInterval : Nat := 100

/-- Default number of blocks after which to checkpoint, taken from
params.NewAtmosEpochInterval(). -/
def epochLength : Nat := atmosEpochInterval

/-- params/atmos_params.go: atmosGovernanceAddress (mainnet default). -/
def atmosGovernanceAddress : Address := 0x7f07f6627e9bf1fc821360e0c20f32af532df106

/-- params/atmos_params.go: atmosTestGovernanceAddress (testnet default). -/
def atmosTestGovernanceAddress : Address := 0x02c362540efc9FA5592621C9212D0bF776732050

/-- params/atmos_params.go: atmosEthereumRPCProvider (mainnet default). -/
def atmosEthereumRPCProvider : String := "https://mainnet.infura.io"

/-- params/atmos_params.go: atmosTestEthereumRPCProvider (testnet default). -/
def atmosTestEthereumRPCProvider : String := "https://rinkeby.infura.io"

/-- 2^64, the modulus of Go uint64 arithmetic. -/
def w64 : Nat := 18446744073709551616

/-- Reduce a Nat to its Go uint64 value. -/
def u64 (n : Nat) : Nat := n % w64

/-- Go uint64 subtraction a - b with wraparound. -/
def u64sub (a b : Nat) : Nat := (u64 a + (w64 - u64 b)) % w64

/-- Go conversion int(x) of a uint64 value x: reinterpret the low 64
bits as a two's-complement signed 64-bit integer. -/
def toInt64 (n : Nat) : Int :=
  let r := n % w64
  if r < 9223372036854775808 then Int.ofNat r else Int.ofNat r - Int.ofNat w64

/-- New(config, db): the configuration actually stored by the engine;
a missing (zero) Epoch is replaced by the default epoch interval.  The
engine never writes to its stored configuration afterwards. -/
def New (config : AtmosConfig) : AtmosConfig :=
  if config.Epoch = 0 then { config with Epoch := epochLength } else config

/-- getEthereumApiEndpoint: the RPC endpoint used for the governance
call. -/
def getEthereumApiEndpoint (config : AtmosConfig) : String :=
  if config.EthereumApiEndpoint ≠ "" then config.EthereumApiEndpoint
  else if config.EnableTestNet then atmosTestEthereumRPCProvider
  else atmosEthereumRPCProvider

/-- getGovernanceAddress: the governance contract address used for the
governance call.  Note the guard tests EthereumApiEndpoint, exactly as
the source does. -/
def getGovernanceAddress (config : AtmosConfig) : Address :=
  if config.EthereumApiEndpoint ≠ "" then config.GovernanceAddress
  else if config.EnableTestNet then atmosTestGovernanceAddress
  else atmosGovernanceAddress

/-- signersProbabilisticSelection(config, addresses, number).  Go
evaluates number / config.Epoch first (integer division, panics when
Epoch is 0), casts it to int, then reduces it modulo
actualNumberOfSigners (panics when that is 0); the loop indexes
addresses at (start + index) % len(addresses) and would panic on an
out-of-range index.  Every panic is Option.none. -/
def signersProbabilisticSelection (config : AtmosConfig) (addresses : List Address)
    (number : Nat) : Option (List Address) :=
  let actualNumberOfSigners := min addresses.length numberOfSigners
  if config.Epoch = 0 then none
  else if actualNumberOfSigners = 0 then none
  else
    let start : Int := (toInt64 (u64 number / config.Epoch)).tmod (Int.ofNat actualNumberOfSigners)
    (List.range actualNumberOfSigners).mapM (fun index =>
      let shiftIndex := (start + Int.ofNat index).tmod (Int.ofNat addresses.length)
      if h : 0 ≤ shiftIndex ∧ shiftIndex.toNat < addresses.length then
        some (addresses.get ⟨shiftIndex.toNat, h.2⟩)
      else none)

/-- getComposers from the point where the governance RPC has returned
the list addresses: the selection is computed (its panics propagate)
and used only for logging, and the function returns the full addresses
list. -/
def getComposersResult (config : AtmosConfig) (addresses : List Address)
    (number : Nat) : Option (List Address) :=
  match signersProbabilisticSelection config addresses number with
  | none => none
  | some _ => some addresses

/-- Engine specific error values of the atmos package used below. -/
inductive VerifyErr where
  | unknownBlock
  | unauthorizedSigner
  | recentlySigned
  | wrongDifficulty
  | invalidNumberOfSigners
deriving DecidableEq

/-- The epoch-boundary branch of Atmos.snapshot, entered when number
mod Epoch = 0 and no in-memory snapshot exists: diskSnap is the result
of loadSnapshot (none when loading the persisted snapshot fails) and
govAddresses the list the governance RPC returned.  On a disk miss the
code calls getComposers and only then checks the returned list for
emptiness, returning errInvalidNumberOfSigners on an empty list.  The
adopted signer list of the fresh snapshot is the value returned by
getComposers; Option.none models a panic. -/
def snapshotEpochBranch (config : AtmosConfig) (number : Nat)
    (diskSnap : Option (List Address)) (govAddresses : List Address) :
    Option (Except VerifyErr (List Address)) :=
  match diskSnap with
  | some s => some (Except.ok s)
  | none =>
    match getComposersResult config govAddresses number with
    | none => none
    | some signers =>
      if signers.length = 0 then some (Except.error VerifyErr.invalidNumberOfSigners)
      else some (Except.ok signers)

/-- The authorisation snapshot: Signers is the key set of the Go map
of authorised addresses, Recents the map from block number to the
signer that produced that block. -/
structure Snapshot where
  Number : Nat
  Signers : List Address
  Recents : List (Nat × Address)

/-- Insert an address into an ascending list, keeping it ascending. -/
def insertSorted (a : Address) : List Address → List Address
  | [] => [a]
  | b :: rest => if a ≤ b then a :: b :: rest else b :: insertSorted a rest

/-- Ascending insertion sort of addresses; models snap.signers(),
which returns the set of authorised signers sorted by raw address
bytes. -/
def sortAddresses : List Address → List Address
  | [] => []
  | a :: rest => insertSorted a (sortAddresses rest)

/-- Modelled from the spec: the snapshot turn function of snapshot.go
is not under src.  Spec 4.3: signers are sorted ascending by raw
address and inturn(number, addr) holds exactly when the sorted
signer list entry at index number mod len equals addr. -/
def Snapshot.inturn (s : Snapshot) (number : Nat) (signer : Address) : Bool :=
  let sorted := sortAddresses s.Signers
  match sorted.get? (number % sorted.length) with
  | some a => a = signer
  | none => false

/-- The recent-signer window width len(snap.Signers)/2 + 1 computed in
verifySeal and Seal. -/
def Snapshot.limit (s : Snapshot) : Nat := s.Signers.length / 2 + 1

/-- The recent-signer loop of verifySeal: some recorded entry (seen,
recent) has recent equal to the recovered signer and seen greater than
number - limit, the subtraction taken in wrapping uint64 arithmetic. -/
def recentlySignedCheck (snap : Snapshot) (signer : Address) (number : Nat) : Bool :=
  snap.Recents.any (fun p => p.2 == signer && decide (u64sub number snap.limit < p.1))

/-- verifySeal, given the snapshot at (number-1, ParentHash) and the
signer recovered by ecrecover from the header seal; diff is the
header difficulty (a non-nil big.Int, compared against 2 and 1). -/
def verifySeal (fakeDiff : Bool) (snap : Snapshot) (signer : Address)
    (number : Nat) (diff : Nat) : Except VerifyErr Unit :=
  if number = 0 then Except.error VerifyErr.unknownBlock
  else if snap.Signers.contains signer = false then Except.error VerifyErr.unauthorizedSigner
  else if recentlySignedCheck snap signer number then Except.error VerifyErr.recentlySigned
  else if fakeDiff = false then
    if snap.inturn number signer = true ∧ diff ≠ 2 then Except.error VerifyErr.wrongDifficulty
    else if snap.inturn number signer = false ∧ diff ≠ 1 then Except.error VerifyErr.wrongDifficulty
    else Except.ok ()
  else Except.ok ()

/-- The possible outcomes of the deterministic prefix of Atmos.Seal,
up to the point where it signs the header and schedules the delayed
delivery. -/
inductive SealOutcome where
  | errUnknownBlock
  | pausedNoTransactions
  | errUnauthorized
  | waitRecentlySigned
  | proceed
deriving DecidableEq

/-- The recent-signer loop of Seal: some recorded entry (seen, recent)
has recent equal to the engine signer and either number < limit or
seen greater than number - limit in wrapping uint64 arithmetic. -/
def sealWaitCheck (snap : Snapshot) (signer : Address) (number : Nat) : Bool :=
  snap.Recents.any (fun p =>
    p.2 == signer && (decide (number < snap.limit) || decide (u64sub number snap.limit < p.1)))

/-- The decision logic of Atmos.Seal given the snapshot at
(number-1, ParentHash), the engine signer and the number of
transactions in the block: which return path Seal takes before any
signing happens.  SealOutcome.proceed means Seal goes on to sign the
header and schedule its delivery. -/
def sealDecision (config : AtmosConfig) (snap : Snapshot) (signer : Address)
    (number : Nat) (txCount : Nat) : SealOutcome :=
  if number = 0 then SealOutcome.errUnknownBlock
  else if config.Period = 0 ∧ txCount = 0 then SealOutcome.pausedNoTransactions
  else if snap.Signers.contains signer = false then SealOutcome.errUnauthorized
  else if sealWaitCheck snap signer number then SealOutcome.waitRecentlySigned
  else SealOutcome.proceed

/-- The free function CalcDifficulty(snap, signer): difficulty 2 when
the signer is in turn at height snap.Number + 1, else 1. -/
def CalcDifficulty (snap : Snapshot) (signer : Address) : Nat :=
  if snap.inturn (snap.Number + 1) signer then 2 else 1

/-- The method Atmos.CalcDifficulty(chain, time, parent): snapResult
is the outcome of the snapshot lookup at the parent (none when the
snapshot call returns an error), in which case the method returns nil,
modelled as Option.none. -/
def AtmosCalcDifficulty (snapResult : Option Snapshot) (signer : Address) : Option Nat :=
  match snapResult with
  | none => none
  | some snap => some (CalcDifficulty snap signer)

/-- A block header with the fields encodeSigHeader reads.  Hashes,
the bloom, the nonce and the extra data are byte lists; Difficulty is
a non-negative big.Int and the uint64 fields are Nat. -/
structure Header where
  ParentHash : List Nat
  UncleHash : List Nat
  Coinbase : Address
  Root : List Nat
  TxHash : List Nat
  ReceiptHash : List Nat
  Bloom : List Nat
  Difficulty : Nat
  Number : Nat
  GasLimit : Nat
  GasUsed : Nat
  Time : Nat
  Extra : List Nat
  MixDigest : List Nat
  Nonce : List Nat

/-- Minimal big-endian byte representation of a Nat; 0 becomes the
empty byte string, matching RLP integer encoding. -/
def natBE (n : Nat) : List Nat :=
  if h : n = 0 then [] else natBE (n / 256) ++ [n % 256]
termination_by n
decreasing_by exact Nat.div_lt_self (Nat.pos_of_ne_zero h) (by decide)

/-- Fixed-width big-endian byte representation, used for the 20-byte
address field. -/
def natBEFixed (width n : Nat) : List Nat :=
  (List.range width).map (fun i => n / 256 ^ (width - 1 - i) % 256)

/-- RLP encoding of a byte string. -/
def rlpBytes (bs : List Nat) : List Nat :=
  match bs with
  | [b] => if b < 128 then [b] else [129, b]
  | _ =>
    if bs.length ≤ 55 then (128 + bs.length) :: bs
    else (183 + (natBE bs.length).length) :: (natBE bs.length ++ bs)

/-- RLP encoding of an unsigned integer (big.Int or uint64): the RLP
of its minimal big-endian bytes. -/
def rlpNat (n : Nat) : List Nat := rlpBytes (natBE n)

/-- RLP encoding of a list whose items are already RLP-encoded. -/
def rlpList (items : List (List Nat)) : List Nat :=
  let payload := items.flatten
  if payload.length ≤ 55 then (192 + payload.length) :: payload
  else (247 + (natBE payload.length).length) :: (natBE payload.length ++ payload)

/-- encodeSigHeader: the RLP encoding of the fifteen header fields
with Extra truncated by its final 65 bytes (the seal).  The source
panics when len(Extra) < 65; callers guarantee the bound. -/
def encodeSigHeader (h : Header) : List Nat :=
  rlpList [rlpBytes h.ParentHash, rlpBytes h.UncleHash,
    rlpBytes (natBEFixed 20 h.Coinbase), rlpBytes h.Root, rlpBytes h.TxHash,
    rlpBytes h.ReceiptHash, rlpBytes h.Bloom, rlpNat h.Difficulty,
    rlpNat h.Number, rlpNat h.GasLimit, rlpNat h.GasUsed, rlpNat h.Time,
    rlpBytes (h.Extra.take (h.Extra.length - 65)), rlpBytes h.MixDigest,
    rlpBytes h.Nonce]

/-- SealHash: the source feeds encodeSigHeader into a fresh Keccak-256
instance and returns its digest.  The hash function is abstracted as
an argument keccak256; the source always instantiates it with
sha3.NewLegacyKeccak256, so a property proved for every keccak256
holds for that instantiation in particular. -/
def SealHash (keccak256 : List Nat → List Nat) (h : Header) : List Nat :=
  keccak256 (encodeSigHeader h)

/-- A configuration with the default mainnet shape: epoch 100, no
custom endpoint. -/
def cfgMain : AtmosConfig :=
  { Period := 3, Epoch := 100, GovernanceAddress := 0,
    EthereumApiEndpoint := "", EnableTestNet := false }

/-- Eleven composer addresses as returned by the governance contract. -/
def addrs11 : List Address := [20, 21, 22, 23, 24, 25, 26, 27, 28, 29, 30]

/-- The governance-address resolution as claim C6 states it: the
configured address when it is set, else the default keyed by
EnableTestNet. -/
def claimedGovernanceResolution (config : AtmosConfig) : Address :=
  if config.GovernanceAddress ≠ 0 then config.GovernanceAddress
  else if config.EnableTestNet then atmosTestGovernanceAddress
  else atmosGovernanceAddress

/-- A configuration with a configured governance address but no custom
endpoint. -/
def cfgCustomGov : AtmosConfig :=
  { Period := 3, Epoch := 100, GovernanceAddress := 12345,
    EthereumApiEndpoint := "", EnableTestNet := false }

/-- C8: with an empty composer list, signersProbabilisticSelection
evaluates a modulo by zero (or, were Epoch zero, a division by zero
first) and panics, and getComposers invokes it before any emptiness
check, so getComposers does not return normally on an empty list. -/
theorem c8_empty_addresses_panic (config : AtmosConfig) (number : Nat) :
    signersProbabilisticSelection config [] number = none ∧
    getComposersResult config [] number = none := by
  have h : signersProbabilisticSelection config [] number = none := by
    unfold signersProbabilisticSelection
    by_cases he : config.Epoch = 0 <;> simp [he, numberOfSigners]
  refine ⟨h, ?_⟩
  unfold getComposersResult
  rw [h]

/-- C1: at the epoch boundary 100 with eleven composers, getComposers
returns the full eleven-address list although the probabilistic
selection (shift start 1, ten entries) is computed; the fresh snapshot
therefore adopts eleven signers, not the selected working set of at
most ten. -/
theorem c1_getComposers_returns_full_list :
    getComposersResult cfgMain addrs11 100 = some addrs11 ∧
    signersProbabilisticSelection cfgMain addrs11 100 =
      some [21, 22, 23, 24, 25, 26, 27, 28, 29, 30] ∧
    addrs11.length = 11 := by
  refine ⟨?_, ?_, rfl⟩ <;> rfl

/-- C2: at epoch boundary 100, with the persisted snapshot failing to
load and the governance client returning an empty list, the snapshot
materialisation panics inside signersProbabilisticSelection (modulo by
zero) before the emptiness check, so it produces neither the
InvalidNumberOfSigners error nor a snapshot. -/
theorem c2_snapshot_panics_on_empty_governance_list :
    snapshotEpochBranch cfgMain 100 none [] = none := rfl

/-- C5 counterexample: when the snapshot lookup at the parent fails,
the method Atmos.CalcDifficulty returns nil, which is not a value in
the set containing 1 and 2. -/
theorem c5_counterexample : AtmosCalcDifficulty none 0 = none := rfl

/-- C5 amended: whenever the snapshot at the parent is available, the
method returns the free function value, which is always 1 or 2 and is
2 exactly when the engine signer is in turn at height snap.Number + 1. -/
theorem c5_calcDifficulty_amended (snap : Snapshot) (signer : Address) :
    AtmosCalcDifficulty (some snap) signer = some (CalcDifficulty snap signer) ∧
    (CalcDifficulty snap signer = 1 ∨ CalcDifficulty snap signer = 2) ∧
    (CalcDifficulty snap signer = 2 ↔ snap.inturn (snap.Number + 1) signer = true) := by
  refine ⟨rfl, ?_, ?_⟩ <;>
    · unfold CalcDifficulty
      by_cases h : snap.inturn (snap.Number + 1) signer <;> simp [h]

/-- C6 counterexample: with no custom endpoint and a configured
governance address 12345, getGovernanceAddress ignores the configured
address and returns the mainnet default, while the claimed resolution
returns the configured address. -/
theorem c6_counterexample :
    getGovernanceAddress cfgCustomGov = atmosGovernanceAddress ∧
    claimedGovernanceResolution cfgCustomGov = 12345 ∧
    atmosGovernanceAddress ≠ 12345 := by
  refine ⟨rfl, rfl, by decide⟩

/-- C6 amended: the endpoint follows the claimed precedence, but the
governance address is keyed on EthereumApiEndpoint being non-empty,
not on the governance address being configured: it is
config.GovernanceAddress exactly when a custom endpoint is set, else
the testnet or mainnet default keyed by EnableTestNet. -/
theorem c6_resolution_amended (config : AtmosConfig) :
    getEthereumApiEndpoint config =
      (if config.EthereumApiEndpoint ≠ "" then config.EthereumApiEndpoint
       else if config.EnableTestNet then atmosTestEthereumRPCProvider
       else atmosEthereumRPCProvider) ∧
    getGovernanceAddress config =
      (if config.EthereumApiEndpoint ≠ "" then config.GovernanceAddress
       else if config.EnableTestNet then atmosTestGovernanceAddress
       else atmosGovernanceAddress) :=
  ⟨rfl, rfl⟩

/-- A snapshot with three authorised signers and no recent activity,
used to exercise the difficulty rule of verifySeal. -/
def snapThree : Snapshot := { Number := 5, Signers := [1, 2, 3], Recents := [] }

/-- Six signers (window limit 4) where signer 1 produced block 1. -/
def snapRecent : Snapshot := { Number := 1, Signers := [1, 2, 3, 4, 5, 6], Recents := [(1, 1)] }

/-- Two signers (window limit 2) where signer 1 produced block 1. -/
def snapTwo : Snapshot := { Number := 1, Signers := [1, 2], Recents := [(1, 1)] }

/-- Five signers (window limit 3) where signer 9 produced block 1. -/
def snapFive : Snapshot := { Number := 1, Signers := [1, 2, 3, 4, 5], Recents := [(1, 9)] }

/-- C3: for a non-genesis header whose signer is recovered, authorised
and not blocked as recent, and with fakeDiff unset, verifySeal fails
WrongDifficulty exactly when the difficulty disagrees with the turn of
the signer, and succeeds exactly when it agrees. -/
theorem c3_verifySeal_difficulty (snap : Snapshot) (signer : Address) (number diff : Nat)
    (h0 : number ≠ 0)
    (h1 : snap.Signers.contains signer = true)
    (h2 : recentlySignedCheck snap signer number = false) :
    (verifySeal false snap signer number diff = Except.error VerifyErr.wrongDifficulty ↔
      ((snap.inturn number signer = true ∧ diff ≠ 2) ∨
       (snap.inturn number signer = false ∧ diff ≠ 1))) ∧
    (verifySeal false snap signer number diff = Except.ok () ↔
      ((snap.inturn number signer = true ∧ diff = 2) ∨
       (snap.inturn number signer = false ∧ diff = 1))) := by
  unfold verifySeal
  rw [if_neg h0, if_neg (by rw [h1]; simp : ¬(snap.Signers.contains signer = false)),
      if_neg (by simp [h2] : ¬(recentlySignedCheck snap signer number = true)),
      if_pos rfl]
  rcases Bool.eq_false_or_eq_true (snap.inturn number signer) with hin | hin <;>
    rw [hin] <;> by_cases hd2 : diff = 2 <;> by_cases hd1 : diff = 1 <;> simp_all

/-- C3 witness: sorted signers 1, 2, 3; at height 6 signer 1 is in
turn since 6 mod 3 = 0, so difficulty 1 is rejected WrongDifficulty. -/
theorem c3_verifySeal_difficulty_witness :
    verifySeal false snapThree 1 6 1 = Except.error VerifyErr.wrongDifficulty :=
  (c3_verifySeal_difficulty snapThree 1 6 1 (by decide) (by decide) (by decide)).1.mpr
    (Or.inl ⟨by decide, by decide⟩)

/-- C4 counterexample: six signers give window limit 4; the engine
signer 1 signed block 1 and now seals block 2.  The condition of the
claim fails, since number 2 is below limit 4, yet Seal returns
silently without sealing instead of proceeding. -/
theorem c4_counterexample :
    sealDecision cfgMain snapRecent 1 2 1 = SealOutcome.waitRecentlySigned ∧
    ¬ (∃ p ∈ snapRecent.Recents, p.2 = 1 ∧ snapRecent.limit ≤ 2 ∧
        2 - snapRecent.limit < p.1) := by
  exact ⟨rfl, by decide⟩

/-- C4 amended: for a sealable non-genesis block with an authorised
engine signer, Seal returns nil without delivering exactly when the
signer appears in snap.Recents and either number < limit or seen >
number - limit in wrapping uint64 arithmetic, where limit =
len(snap.Signers)/2 + 1; in every other case it proceeds to sign and
schedule delivery. -/
theorem c4_seal_amended (config : AtmosConfig) (snap : Snapshot) (signer : Address)
    (number txCount : Nat)
    (h0 : number ≠ 0)
    (hp : ¬ (config.Period = 0 ∧ txCount = 0))
    (h1 : snap.Signers.contains signer = true) :
    (sealDecision config snap signer number txCount = SealOutcome.waitRecentlySigned ↔
      ∃ p ∈ snap.Recents, p.2 = signer ∧
        (number < snap.limit ∨ u64sub number snap.limit < p.1)) ∧
    (sealDecision config snap signer number txCount = SealOutcome.proceed ↔
      ¬ ∃ p ∈ snap.Recents, p.2 = signer ∧
        (number < snap.limit ∨ u64sub number snap.limit < p.1)) := by
  have hany : sealWaitCheck snap signer number = true ↔
      ∃ p ∈ snap.Recents, p.2 = signer ∧
        (number < snap.limit ∨ u64sub number snap.limit < p.1) := by
    unfold sealWaitCheck
    simp [List.any_eq_true, Bool.and_eq_true, Bool.or_eq_true, decide_eq_true_iff]
  rw [← hany]
  have hmem : signer ∈ snap.Signers := by simpa using h1
  unfold sealDecision
  by_cases hw : sealWaitCheck snap signer number = true <;> simp [h0, hp, h1, hmem, hw]

/-- C4 amended witness: two signers give limit 2; signer 1 signed
block 1 and seals block 2, where seen 1 exceeds 2 - 2 = 0, so Seal
returns silently. -/
theorem c4_seal_amended_witness :
    sealDecision cfgMain snapTwo 1 2 1 = SealOutcome.waitRecentlySigned :=
  (c4_seal_amended cfgMain snapTwo 1 2 1 (by decide) (by decide) (by decide)).1.mpr
    ⟨(1, 1), by decide, rfl, Or.inr (by decide)⟩

/-- C9: when number is strictly below limit = len(snap.Signers)/2 + 1,
the uint64 subtraction number - limit in the verifySeal recents loop
wraps to at least number + (2^64 - limit), so no recorded entry (all
of whose keys are below number) can exceed it, and verifySeal never
fails RecentlySigned. -/
theorem c9_no_recently_signed_below_limit (snap : Snapshot) (signer : Address)
    (number diff : Nat) (fakeDiff : Bool)
    (hlt : number < snap.limit)
    (hlim : snap.limit < w64)
    (hrec : ∀ p ∈ snap.Recents, p.1 < number) :
    recentlySignedCheck snap signer number = false ∧
    verifySeal fakeDiff snap signer number diff ≠ Except.error VerifyErr.recentlySigned := by
  have hval : u64sub number snap.limit = number + (w64 - snap.limit) := by
    unfold u64sub u64
    have hn : number % w64 = number := Nat.mod_eq_of_lt (lt_trans hlt hlim)
    have hl : snap.limit % w64 = snap.limit := Nat.mod_eq_of_lt hlim
    rw [hn, hl]
    apply Nat.mod_eq_of_lt
    omega
  have hfirst : recentlySignedCheck snap signer number = false := by
    unfold recentlySignedCheck
    rw [List.any_eq_false]
    intro p hp
    simp only [Bool.and_eq_true, beq_iff_eq, decide_eq_true_iff, not_and]
    intro _
    rw [hval]
    have := hrec p hp
    omega
  refine ⟨hfirst, ?_⟩
  unfold verifySeal
  simp only [hfirst]
  split
  · simp
  · split
    · simp
    · simp only [Bool.false_eq_true, if_false]
      split
      · split
        · simp
        · split <;> simp
      · simp

/-- C9 witness: five signers give limit 3; at block 2 with the
recorded entry for block 1, the recents check cannot fire. -/
theorem c9_no_recently_signed_below_limit_witness :
    recentlySignedCheck snapFive 9 2 = false :=
  (c9_no_recently_signed_below_limit snapFive 9 2 1 false
    (by decide) (by decide) (by decide)).1

/-- A minimal non-checkpoint header: 32 zero vanity bytes followed by
a 65-byte zero seal. -/
def headerA : Header :=
  { ParentHash := List.replicate 32 0, UncleHash := List.replicate 32 0,
    Coinbase := 0, Root := List.replicate 32 0, TxHash := List.replicate 32 0,
    ReceiptHash := List.replicate 32 0, Bloom := List.replicate 256 0,
    Difficulty := 2, Number := 1, GasLimit := 0, GasUsed := 0, Time := 0,
    Extra := List.replicate 97 0, MixDigest := List.replicate 32 0,
    Nonce := List.replicate 8 0 }

/-- headerA with a different 65-byte seal at the end of Extra. -/
def headerB : Header :=
  { headerA with Extra := List.replicate 32 0 ++ List.replicate 65 7 }

/-- C7: SealHash is invariant under changes confined to the final 65
bytes of Extra: two headers with Extra at least 65 bytes long that
agree on every other field, have Extra of the same length and agree on
Extra up to its final 65 bytes receive the same seal hash under every
hash function, in particular under Keccak-256, with which the source
instantiates it. -/
theorem c7_sealHash_invariant (keccak256 : List Nat → List Nat) (h h2 : Header)
    (hlen : 65 ≤ h.Extra.length)
    (e1 : h2.ParentHash = h.ParentHash) (e2 : h2.UncleHash = h.UncleHash)
    (e3 : h2.Coinbase = h.Coinbase) (e4 : h2.Root = h.Root)
    (e5 : h2.TxHash = h.TxHash) (e6 : h2.ReceiptHash = h.ReceiptHash)
    (e7 : h2.Bloom = h.Bloom) (e8 : h2.Difficulty = h.Difficulty)
    (e9 : h2.Number = h.Number) (e10 : h2.GasLimit = h.GasLimit)
    (e11 : h2.GasUsed = h.GasUsed) (e12 : h2.Time = h.Time)
    (e13 : h2.Extra.length = h.Extra.length)
    (e14 : h2.Extra.take (h2.Extra.length - 65) = h.Extra.take (h.Extra.length - 65))
    (e15 : h2.MixDigest = h.MixDigest) (e16 : h2.Nonce = h.Nonce) :
    SealHash keccak256 h2 = SealHash keccak256 h := by
  have _ := hlen
  have _ := e13
  unfold SealHash encodeSigHeader
  rw [e1, e2, e3, e4, e5, e6, e7, e8, e9, e10, e11, e12, e14, e15, e16]

/-- C7 witness: two concrete 97-byte-Extra headers differing exactly
in the final 65 bytes of Extra share their seal hash. -/
theorem c7_sealHash_invariant_witness :
    SealHash (fun bs => bs) headerB = SealHash (fun bs => bs) headerA :=
  c7_sealHash_invariant (fun bs => bs) headerA headerB (by decide)
    rfl rfl rfl rfl rfl rfl rfl rfl rfl rfl rfl rfl (by decide) (by decide) rfl rfl

/-- C10: the engine construction replaces a zero Epoch by the default
epoch interval (100), so the stored configuration never has a zero
epoch and every later computation of number mod Epoch divides by a
non-zero value. -/
theorem c10_new_nonzero_epoch (config : AtmosConfig) : (New config).Epoch ≠ 0 := by
  unfold New
  by_cases h : config.Epoch = 0 <;> simp [h, epochLength, atmosEpochInterval]

end Atmos
